import Mathlib

/-!
Shallow embedding of the Conan recipe `src/cyclonedds/all/conanfile.py`
(class `CycloneDDSConan`), a packaging recipe for Eclipse Cyclone DDS.
Options, settings and the recipe methods (`config_options`, `configure`,
`requirements`, `validate`, `generate`, `package`, `package_info`) are
translated into pure Lean functions, together with a small model of the
module's top-level name binding (its `import` statements), which decides
which Python exception a `raise` expression actually produces.
-/

/-- The recipe's build options (conanfile.py lines 36-43).  `fPIC` is an
`Option Bool` because `config_options` and `configure` may delete it
(`del self.options.fPIC`); the other options are always present. -/
structure Options where
  shared : Bool
  fPIC : Option Bool
  with_ssl : Bool
  with_shm : Bool
  enable_security : Bool
  enable_discovery : Bool
  deriving DecidableEq, Repr

/-- `default_options` (conanfile.py lines 44-51). -/
def default_options : Options :=
  { shared := false
    fPIC := some true
    with_ssl := false
    with_shm := false
    enable_security := false
    enable_discovery := true }

/-- The settings the recipe reads: `os`, `compiler`, `compiler.version`
(as its dotted numeric components), and the removable sub-settings
`compiler.cppstd` and `compiler.libcxx` (`none` once `rm_safe` has run or
when the profile never set them). -/
structure Settings where
  os : String
  compiler : String
  compilerVersion : List Nat
  cppstd : Option Nat
  libcxx : Option String
  deriving DecidableEq, Repr

/-- Conan `Version` strict comparison on dotted numeric versions:
componentwise, with missing trailing components reading as zero
(so `7.0 < 7` is false and `6.9 < 7` is true). -/
def versionLt : List Nat → List Nat → Bool
  | [], bs => bs.any (fun b => decide (0 < b))
  | a :: as, [] => if 0 < a then false else versionLt as []
  | a :: as, b :: bs =>
      if a < b then true else if b < a then false else versionLt as bs

/-- `_min_cppstd` (conanfile.py lines 55-57): the string "14". -/
def min_cppstd : Nat := 14

/-- `_compilers_minimum_version` (conanfile.py lines 59-67): the
minimum-version table keyed by compiler name. -/
def compilers_minimum_version : List (String × List Nat) :=
  [("gcc", [7]),
   ("clang", [7]),
   ("apple-clang", [10]),
   ("msvc", [192]),
   ("Visual Studio", [16])]

/-- `config_options` (conanfile.py lines 73-76): on Windows, delete the
`fPIC` option. -/
def config_options (o : Options) (st : Settings) : Options :=
  if st.os = "Windows" then { o with fPIC := none } else o

/-- `configure` (conanfile.py lines 78-84): when `shared` is set, delete
`fPIC`; and `rm_safe` removes `compiler.libcxx` and `compiler.cppstd`. -/
def configure (o : Options) (st : Settings) : Options × Settings :=
  ((if o.shared then { o with fPIC := none } else o),
   { st with libcxx := none, cppstd := none })

/-- The error kinds of the three `validate` branches (conanfile.py lines
95-110): the static+security rejection, the `check_min_cppstd` failure,
and the compiler-minimum-version rejection. -/
inductive ValidateError where
  | IncompatibleOptions
  | CppstdTooLow
  | ToolchainTooOld
  deriving DecidableEq, Repr

/-- Truthiness of `self.settings.compiler.get_safe("cppstd")`: any set
value is truthy, an absent setting is falsy. -/
def cppstdTruthy : Option Nat → Bool
  | some _ => true
  | none => false

/-- `check_min_cppstd(self, "14")` fails exactly when the configured
cppstd is below the minimum. -/
def cppstdBelowMin : Option Nat → Bool
  | some v => decide (v < min_cppstd)
  | none => false

/-- `validate` (conanfile.py lines 95-110), at the granularity of which
branch raises: first the static+security check, then the cppstd check
(guarded by `get_safe("cppstd")` being truthy), then the
compiler-minimum-version check (`dict.get` returning `None` for an
unrecognized compiler short-circuits the `if min_version and ...`). -/
def validate (o : Options) (st : Settings) : Except ValidateError Unit :=
  if o.enable_security && !o.shared then
    .error .IncompatibleOptions
  else if cppstdTruthy st.cppstd && cppstdBelowMin st.cppstd then
    .error .CppstdTooLow
  else
    match compilers_minimum_version.lookup st.compiler with
    | some m =>
        if versionLt st.compilerVersion m then .error .ToolchainTooOld
        else .ok ()
    | none => .ok ()

/-- Whether control in `validate` reaches the call
`check_min_cppstd(self, self._min_cppstd)` at line 103: the earlier
static+security branch must not have raised, and
`get_safe("cppstd")` must be truthy. -/
def cppstdCheckReached (o : Options) (st : Settings) : Bool :=
  !(o.enable_security && !o.shared) && cppstdTruthy st.cppstd

/-- The names bound at the top level of conanfile.py (lines 1-22): the
imported names, the version-requirement constant and the class itself. -/
def moduleNames : List String :=
  ["ConanFile", "check_min_cppstd",
   "CMakeToolchain", "CMakeDeps", "CMake", "cmake_layout",
   "get", "apply_conandata_patches", "copy", "export_conandata_patches",
   "rmdir", "rm", "Version", "os",
   "required_conan_version", "CycloneDDSConan"]

/-- A Python-level exception outcome: either the raise expression's name
resolved and a `ConanInvalidConfiguration` is raised, or name resolution
failed and Python raises `NameError` for that name. -/
inductive PyError where
  | invalidConfiguration
  | nameError (n : String)
  deriving DecidableEq, Repr

/-- Evaluating `raise N(...)` in the module's namespace: a `NameError`
when `N` is not bound at module level. -/
def raiseByName (n : String) : PyError :=
  if n ∈ moduleNames then .invalidConfiguration else .nameError n

/-- Which Python exception each `validate` branch produces.  The two
in-file `raise` statements reference the module-level name
`ConanInvalidConfiguration`; `check_min_cppstd` raises from inside
`conan.tools.build`, where that name resolves. -/
def branchRaise : ValidateError → PyError
  | .IncompatibleOptions => raiseByName "ConanInvalidConfiguration"
  | .CppstdTooLow => .invalidConfiguration
  | .ToolchainTooOld => raiseByName "ConanInvalidConfiguration"

/-- `validate` as Python actually runs it: the branch that fires is
mapped to the exception its `raise` expression really produces. -/
def validateRun (o : Options) (st : Settings) : Except PyError Unit :=
  match validate o st with
  | .ok () => .ok ()
  | .error e => .error (branchRaise e)

/-- `requirements` (conanfile.py lines 89-93): the dependency references
appended in source order. -/
def requirements (o : Options) : List String :=
  (if o.with_shm then ["iceoryx/2.0.5"] else []) ++
  (if o.with_ssl then ["openssl/[>=1.1 <4]"] else [])

/-- Modelled from the spec: `generate` and `package_info` call
`self._has_idlc()`, but no `_has_idlc` is defined anywhere in
conanfile.py; the spec states the IDL-helper predicate is
"in this recipe ... unconditionally true, but structured as a predicate
for extensibility". -/
def hasIdlc (_o : Options) : Bool := true

/-- `generate` (conanfile.py lines 119-132): the `tc.variables`
assignments, in source order. -/
def generateVariables (o : Options) : List (String × Bool) :=
  [("BUILD_IDLC", hasIdlc o),
   ("BUILD_IDLC_TESTING", false),
   ("BUILD_DDSPERF", false),
   ("ENABLE_SSL", o.with_ssl),
   ("ENABLE_SHM", o.with_shm),
   ("ENABLE_SECURITY", o.enable_security),
   ("ENABLE_TYPE_DISCOVERY", o.enable_discovery),
   ("ENABLE_TOPIC_DISCOVERY", o.enable_discovery)]

/-- `generate` (conanfile.py line 131): the `tc.cache_variables`
assignments. -/
def generateCacheVariables (_o : Options) : List (String × Bool) :=
  [("ENABLE_LTO", false)]

/-- One post-install artifact action of `package` (conanfile.py lines
142-158): the cmake install, a copy, a directory removal (`rmdir`) or a
glob removal (`rm(pattern, dir)`).  Paths are relative to the package
folder. -/
inductive ArtifactRule where
  | cmakeInstall
  | copyFile (pat : String) (dst : String)
  | rmdirRule (dir : String)
  | rmGlob (pat : String) (dir : String)
  deriving DecidableEq, Repr

/-- `package` (conanfile.py lines 142-158): install, license copy, the
unconditional cleanup of `share`, `lib/pkgconfig` and the cmake glue in
`lib/cmake/CycloneDDS`, then the Windows-only PDB and runtime-DLL glob
removals in `bin`. -/
def package (st : Settings) : List ArtifactRule :=
  [.cmakeInstall,
   .copyFile "LICENSE" "licenses",
   .rmdirRule "share",
   .rmdirRule "lib/pkgconfig",
   .rmGlob "*.cmake" "lib/cmake/CycloneDDS"] ++
  (if st.os = "Windows" then
    [.rmGlob "*.pdb" "bin",
     .rmGlob "concrt*.dll" "bin",
     .rmGlob "msvcp*.dll" "bin",
     .rmGlob "vcruntime*.dll" "bin"]
   else [])

/-- A component descriptor as `package_info` builds it (conanfile.py
lines 160-194). -/
structure Component where
  name : String
  cmake_target_name : String
  libs : List String
  requires : List String
  system_libs : List String
  build_modules : List String
  deriving DecidableEq, Repr

/-- The `ddsc` component (conanfile.py lines 165-178): core library,
optional dependency edges, and system libraries keyed by platform. -/
def ddscComponent (o : Options) (st : Settings) : Component :=
  { name := "ddsc"
    cmake_target_name := "CycloneDDS::ddsc"
    libs := ["ddsc"]
    requires :=
      (if o.with_shm then ["iceoryx::iceoryx_binding_c"] else []) ++
      (if o.with_ssl then ["openssl::openssl"] else [])
    system_libs :=
      if st.os = "Linux" ∨ st.os = "FreeBSD" then ["dl", "pthread"]
      else if st.os = "Windows" then ["ws2_32", "dbghelp", "bcrypt", "iphlpapi"]
      else []
    build_modules := [] }

/-- The `idl` component (conanfile.py lines 180-190): the helper library
and its two cmake build-integration modules. -/
def idlComponent : Component :=
  { name := "idl"
    cmake_target_name := "CycloneDDS::idl"
    libs := ["cycloneddsidl"]
    requires := []
    system_libs := []
    build_modules :=
      ["lib/cmake/CycloneDDS/CycloneDDS_idlc.cmake",
       "lib/cmake/CycloneDDS/idlc/Generate.cmake"] }

/-- What `package_info` exposes (conanfile.py lines 160-194): the
component list and the PATH contributions of the build and run
environments. -/
structure PackageInfo where
  components : List Component
  buildenvPathPrepend : List String
  runenvPathPrepend : List String
  deriving DecidableEq, Repr

/-- `package_info` (conanfile.py lines 160-194): always the `ddsc`
component; when `_has_idlc()` holds, also the `idl` component and the
package `bin` directory prepended to PATH in both environments. -/
def package_info (o : Options) (st : Settings) (packageFolder : String) :
    PackageInfo :=
  if hasIdlc o then
    { components := [ddscComponent o st, idlComponent]
      buildenvPathPrepend := [packageFolder ++ "/bin"]
      runenvPathPrepend := [packageFolder ++ "/bin"] }
  else
    { components := [ddscComponent o st]
      buildenvPathPrepend := []
      runenvPathPrepend := [] }

/-! ## Facts about `validate` -/

theorem validate_of_security (o : Options) (st : Settings)
    (h : (o.enable_security && !o.shared) = true) :
    validate o st = .error .IncompatibleOptions := by
  unfold validate
  simp [h]

theorem validate_error_shape (o : Options) (st : Settings)
    (h : (o.enable_security && !o.shared) = false) :
    validate o st =
      (if cppstdTruthy st.cppstd && cppstdBelowMin st.cppstd then
        .error .CppstdTooLow
      else
        match compilers_minimum_version.lookup st.compiler with
        | some m =>
            if versionLt st.compilerVersion m then .error .ToolchainTooOld
            else .ok ()
        | none => .ok ()) := by
  unfold validate
  simp [h]

/-- C1: for every option set and settings, `validate` fails with the
`IncompatibleOptions` branch (the static+security rejection at lines
97-100) exactly when `enable_security` is true and `shared` is false;
with `shared` true that error never occurs. -/
theorem validate_incompatible_iff (o : Options) (st : Settings) :
    validate o st = .error .IncompatibleOptions ↔
      (o.enable_security = true ∧ o.shared = false) := by
  cases hsec : o.enable_security <;> cases hsh : o.shared
  · rw [validate_error_shape o st (by simp [hsec, hsh])]
    constructor
    · intro h
      exfalso
      revert h
      split
      · simp
      · split
        · split <;> simp
        · simp
    · rintro ⟨h, -⟩
      exact absurd h (by simp)
  · rw [validate_error_shape o st (by simp [hsec, hsh])]
    constructor
    · intro h
      exfalso
      revert h
      split
      · simp
      · split
        · split <;> simp
        · simp
    · rintro ⟨h, -⟩
      exact absurd h (by simp)
  · rw [validate_of_security o st (by simp [hsec, hsh])]
    simp [hsec, hsh]
  · rw [validate_error_shape o st (by simp [hsec, hsh])]
    constructor
    · intro h
      exfalso
      revert h
      split
      · simp
      · split
        · split <;> simp
        · simp
    · rintro ⟨-, h⟩
      exact absurd h (by simp [hsh])

/-- C1 witness: concrete evaluation of the theorem. -/
theorem validate_incompatible_iff_witness :
    validate { default_options with enable_security := true }
      { os := "Linux", compiler := "gcc", compilerVersion := [12],
        cppstd := none, libcxx := none } = .error .IncompatibleOptions :=
  (validate_incompatible_iff _ _).mpr ⟨rfl, rfl⟩

theorem validate_toolchain_char (o : Options) (st : Settings)
    (hsec : (o.enable_security && !o.shared) = false)
    (hcpp : (cppstdTruthy st.cppstd && cppstdBelowMin st.cppstd) = false) :
    validate o st = .error .ToolchainTooOld ↔
      ∃ m, compilers_minimum_version.lookup st.compiler = some m ∧
        versionLt st.compilerVersion m = true := by
  rw [validate_error_shape o st hsec, hcpp]
  simp only [Bool.false_eq_true, if_false]
  cases hl : compilers_minimum_version.lookup st.compiler with
  | none => simp
  | some m =>
    cases hv : versionLt st.compilerVersion m with
    | false => simp [hv]
    | true => simp [hv]

theorem validate_no_cppstd_error (o : Options) (st : Settings)
    (h : st.cppstd = none) : validate o st ≠ .error .CppstdTooLow := by
  cases hsec : (o.enable_security && !o.shared) with
  | true => rw [validate_of_security o st hsec]; simp
  | false =>
    rw [validate_error_shape o st hsec]
    rw [h]
    simp only [cppstdTruthy, Bool.false_and, Bool.false_eq_true, if_false]
    cases compilers_minimum_version.lookup st.compiler with
    | none => simp
    | some m => split <;> (first | (split <;> simp) | simp)

theorem validate_unknown_compiler (o : Options) (st : Settings)
    (h : compilers_minimum_version.lookup st.compiler = none) :
    validate o st ≠ .error .ToolchainTooOld := by
  cases hsec : (o.enable_security && !o.shared) with
  | true => rw [validate_of_security o st hsec]; simp
  | false =>
    rw [validate_error_shape o st hsec]
    split
    · simp
    · rw [h]
      simp

/-- C2 counterexample: a configuration with no cppstd override where
the compiler-minimum-version branch of `validate` nonetheless fires
(gcc 6 is below the table's minimum of 7): the version check is not
skipped when no language-standard override is configured. -/
theorem toolchain_check_fires_without_cppstd :
    ({ os := "Linux", compiler := "gcc", compilerVersion := [6],
       cppstd := none, libcxx := none } : Settings).cppstd = none ∧
    validate default_options
      { os := "Linux", compiler := "gcc", compilerVersion := [6],
        cppstd := none, libcxx := none } = .error .ToolchainTooOld :=
  ⟨rfl, rfl⟩

/-- C2 amended: only the minimum-cppstd check (`check_min_cppstd`) is
skipped when no cppstd override is configured; the compiler
minimum-version check runs regardless, so a configuration without a
cppstd override still fails with `ToolchainTooOld` exactly when the
compiler is in the table with a version below its minimum (and the
security branch did not fire first). -/
theorem toolchain_check_independent_of_cppstd :
    (∀ (o : Options) (st : Settings), st.cppstd = none →
      validate o st ≠ .error .CppstdTooLow) ∧
    (∀ (o : Options) (st : Settings), st.cppstd = none →
      (o.enable_security && !o.shared) = false →
      (validate o st = .error .ToolchainTooOld ↔
        ∃ m, compilers_minimum_version.lookup st.compiler = some m ∧
          versionLt st.compilerVersion m = true)) := by
  refine ⟨fun o st h => validate_no_cppstd_error o st h, ?_⟩
  intro o st h hsec
  exact validate_toolchain_char o st hsec (by rw [h]; rfl)

/-- C2 amended witness: concrete evaluation of the theorem. -/
theorem toolchain_check_independent_of_cppstd_witness :
    validate default_options
      { os := "Macos", compiler := "apple-clang", compilerVersion := [9, 1],
        cppstd := none, libcxx := none } = .error .ToolchainTooOld :=
  (toolchain_check_independent_of_cppstd.2 default_options _ rfl rfl).mpr
    ⟨[10], rfl, rfl⟩

/-- C3: the minimum-version table holds exactly gcc 7, clang 7,
apple-clang 10, msvc 192 and Visual Studio 16; when the earlier branches
of `validate` do not fire, `validate` fails with `ToolchainTooOld` iff
the compiler is in the table with a version strictly below its entry;
and a compiler absent from the table never produces that error. -/
theorem toolchain_min_version_table :
    compilers_minimum_version =
      [("gcc", [7]), ("clang", [7]), ("apple-clang", [10]),
       ("msvc", [192]), ("Visual Studio", [16])] ∧
    (∀ (o : Options) (st : Settings),
      (o.enable_security && !o.shared) = false →
      (cppstdTruthy st.cppstd && cppstdBelowMin st.cppstd) = false →
      (validate o st = .error .ToolchainTooOld ↔
        ∃ m, compilers_minimum_version.lookup st.compiler = some m ∧
          versionLt st.compilerVersion m = true)) ∧
    (∀ (o : Options) (st : Settings),
      compilers_minimum_version.lookup st.compiler = none →
      validate o st ≠ .error .ToolchainTooOld) :=
  ⟨rfl,
   fun o st hsec hcpp => validate_toolchain_char o st hsec hcpp,
   fun o st h => validate_unknown_compiler o st h⟩

/-- C3 witness: concrete evaluation of the theorem. -/
theorem toolchain_min_version_table_witness :
    validate default_options
      { os := "Linux", compiler := "clang", compilerVersion := [6, 9],
        cppstd := none, libcxx := none } = .error .ToolchainTooOld :=
  (toolchain_min_version_table.2.1 default_options
      { os := "Linux", compiler := "clang", compilerVersion := [6, 9],
        cppstd := none, libcxx := none } rfl rfl).mpr
    ⟨[7], rfl, rfl⟩

/-- C9: the name `ConanInvalidConfiguration` is not bound at module
level in conanfile.py, so when either in-file `validate` branch fires
(static+security, or too-old compiler), Python raises a `NameError` for
that name instead of the configuration error. -/
theorem conanInvalidConfiguration_not_imported :
    "ConanInvalidConfiguration" ∉ moduleNames ∧
    (∀ (o : Options) (st : Settings),
      o.enable_security = true → o.shared = false →
      validateRun o st = .error (.nameError "ConanInvalidConfiguration")) ∧
    (∀ (o : Options) (st : Settings),
      validate o st = .error .ToolchainTooOld →
      validateRun o st = .error (.nameError "ConanInvalidConfiguration")) := by
  refine ⟨by decide, ?_, ?_⟩
  · intro o st h1 h2
    unfold validateRun
    rw [validate_of_security o st (by simp [h1, h2])]
    rfl
  · intro o st h
    unfold validateRun
    rw [h]
    rfl

/-- C9 witness: concrete evaluation of the theorem. -/
theorem conanInvalidConfiguration_not_imported_witness :
    validateRun { default_options with enable_security := true }
      { os := "Windows", compiler := "msvc", compilerVersion := [193],
        cppstd := none, libcxx := none } =
      .error (.nameError "ConanInvalidConfiguration") :=
  conanInvalidConfiguration_not_imported.2.1 _ _ rfl rfl

/-- C10: `configure` always removes `compiler.cppstd` via `rm_safe`, so
in a run where `configure` precedes `validate` the guard
`get_safe("cppstd")` is falsy, `check_min_cppstd` is never reached, and
`validate` never fails with the cppstd error. -/
theorem cppstd_check_unreachable_after_configure
    (o o2 : Options) (st : Settings) :
    (configure o st).2.cppstd = none ∧
    cppstdCheckReached o2 (configure o st).2 = false ∧
    validate o2 (configure o st).2 ≠ .error .CppstdTooLow := by
  refine ⟨rfl, ?_, validate_no_cppstd_error _ _ rfl⟩
  simp [cppstdCheckReached, configure, cppstdTruthy]

/-- C10 witness: concrete evaluation of the theorem. -/
theorem cppstd_check_unreachable_after_configure_witness :
    cppstdCheckReached default_options
      (configure default_options
        { os := "Linux", compiler := "gcc", compilerVersion := [13],
          cppstd := some 11, libcxx := some "libstdcpp11" }).2 = false :=
  (cppstd_check_unreachable_after_configure
    default_options default_options _).2.1

/-- C4: `generate` forwards each boolean option one-to-one (ENABLE_SSL,
ENABLE_SHM, ENABLE_SECURITY, and enable_discovery to both
ENABLE_TYPE_DISCOVERY and ENABLE_TOPIC_DISCOVERY), sets the fixed
overrides BUILD_IDLC_TESTING=false, BUILD_DDSPERF=false and
ENABLE_LTO=false, and sets BUILD_IDLC from the IDL-helper predicate,
which is unconditionally true. -/
theorem generate_variables_spec (o : Options) :
    (generateVariables o).lookup "ENABLE_SSL" = some o.with_ssl ∧
    (generateVariables o).lookup "ENABLE_SHM" = some o.with_shm ∧
    (generateVariables o).lookup "ENABLE_SECURITY" = some o.enable_security ∧
    (generateVariables o).lookup "ENABLE_TYPE_DISCOVERY" =
      some o.enable_discovery ∧
    (generateVariables o).lookup "ENABLE_TOPIC_DISCOVERY" =
      some o.enable_discovery ∧
    (generateVariables o).lookup "BUILD_IDLC_TESTING" = some false ∧
    (generateVariables o).lookup "BUILD_DDSPERF" = some false ∧
    (generateCacheVariables o).lookup "ENABLE_LTO" = some false ∧
    (generateVariables o).lookup "BUILD_IDLC" = some (hasIdlc o) ∧
    hasIdlc o = true :=
  ⟨rfl, rfl, rfl, rfl, rfl, rfl, rfl, rfl, rfl, rfl⟩

/-- C5: the declared defaults are shared=false, fPIC=true, with_ssl=false,
with_shm=false, enable_security=false, enable_discovery=true; after
`config_options` and `configure`, fPIC is removed exactly when the os is
Windows or shared is set; on a non-Windows os the default option set has
fPIC present iff the build is static. -/
theorem options_defaults_and_fpic_removal :
    default_options =
      { shared := false, fPIC := some true, with_ssl := false,
        with_shm := false, enable_security := false,
        enable_discovery := true } ∧
    (∀ (o : Options) (st : Settings), o.fPIC.isSome = true →
      ((configure (config_options o st) st).1.fPIC = none ↔
        (st.os = "Windows" ∨ o.shared = true))) ∧
    (∀ (sh : Bool) (st : Settings), st.os ≠ "Windows" →
      ((configure (config_options { default_options with shared := sh } st)
          st).1.fPIC.isSome = true ↔ sh = false)) := by
  refine ⟨rfl, ?_, ?_⟩
  · intro o st h
    by_cases hw : st.os = "Windows"
    · simp [config_options, configure, hw]
    · rw [Option.isSome_iff_ne_none] at h
      cases hsh : o.shared
      · simp [config_options, configure, hw, hsh, h]
      · simp [config_options, configure, hw, hsh]
  · intro sh st hw
    cases sh
    · simp [config_options, configure, hw, default_options]
    · simp [config_options, configure, hw, default_options]

/-- C5 witness: concrete evaluation of the theorem. -/
theorem options_defaults_and_fpic_removal_witness :
    (configure (config_options { default_options with shared := true }
        { os := "Linux", compiler := "gcc", compilerVersion := [13],
          cppstd := none, libcxx := none })
      { os := "Linux", compiler := "gcc", compilerVersion := [13],
        cppstd := none, libcxx := none }).1.fPIC = none :=
  (options_defaults_and_fpic_removal.2.1
    { default_options with shared := true }
    { os := "Linux", compiler := "gcc", compilerVersion := [13],
      cppstd := none, libcxx := none } rfl).mpr (Or.inr rfl)

/-- C6: `requirements` yields exactly one pinned iceoryx entry iff
with_shm (zero otherwise), the openssl range entry iff with_ssl, and
when both are present the iceoryx entry precedes the openssl entry. -/
theorem requirements_spec :
    (∀ o : Options, (requirements o).count "iceoryx/2.0.5" =
      if o.with_shm then 1 else 0) ∧
    (∀ o : Options,
      "openssl/[>=1.1 <4]" ∈ requirements o ↔ o.with_ssl = true) ∧
    (∀ o : Options, o.with_shm = true → o.with_ssl = true →
      requirements o = ["iceoryx/2.0.5", "openssl/[>=1.1 <4]"]) := by
  refine ⟨?_, ?_, ?_⟩
  · intro o
    cases hshm : o.with_shm <;> cases hssl : o.with_ssl <;>
      simp [requirements, hshm, hssl]
  · intro o
    cases hshm : o.with_shm <;> cases hssl : o.with_ssl <;>
      simp [requirements, hshm, hssl]
  · intro o h1 h2
    simp [requirements, h1, h2]

/-- C6 witness: concrete evaluation of the theorem. -/
theorem requirements_spec_witness :
    requirements { default_options with with_shm := true, with_ssl := true } =
      ["iceoryx/2.0.5", "openssl/[>=1.1 <4]"] :=
  requirements_spec.2.2
    { default_options with with_shm := true, with_ssl := true } rfl rfl

/-- C7: `package_info` always yields the "ddsc" descriptor with system
libraries selected by platform (dl and pthread on Linux/FreeBSD; ws2_32,
dbghelp, bcrypt, iphlpapi on Windows), and yields the "idl" descriptor
iff the IDL-helper flag resolves true, in that case with exactly two
build-integration file paths and the package bin directory prepended to
PATH in the build and run environments. -/
theorem package_info_components :
    (∀ (o : Options) (st : Settings) (pf : String),
      ∃ c, c ∈ (package_info o st pf).components ∧ c.name = "ddsc" ∧
        (st.os = "Linux" ∨ st.os = "FreeBSD" →
          c.system_libs = ["dl", "pthread"]) ∧
        (st.os = "Windows" →
          c.system_libs = ["ws2_32", "dbghelp", "bcrypt", "iphlpapi"])) ∧
    (∀ (o : Options) (st : Settings) (pf : String),
      ((package_info o st pf).components.any (fun c => c.name == "idl")) =
        hasIdlc o) ∧
    (∀ (o : Options) (st : Settings) (pf : String), hasIdlc o = true →
      idlComponent ∈ (package_info o st pf).components ∧
      idlComponent.build_modules.length = 2 ∧
      (package_info o st pf).buildenvPathPrepend = [pf ++ "/bin"] ∧
      (package_info o st pf).runenvPathPrepend = [pf ++ "/bin"]) := by
  refine ⟨?_, ?_, ?_⟩
  · intro o st pf
    refine ⟨ddscComponent o st, ?_, rfl, ?_, ?_⟩
    · simp [package_info, hasIdlc]
    · intro h
      show (if st.os = "Linux" ∨ st.os = "FreeBSD" then _ else _) = _
      rw [if_pos h]
    · intro h
      simp [ddscComponent, h]
  · intro o st pf
    simp [package_info, hasIdlc, ddscComponent, idlComponent]
  · intro o st pf _
    refine ⟨?_, rfl, rfl, rfl⟩
    simp [package_info, hasIdlc]

/-- C7 witness: concrete evaluation of the theorem. -/
theorem package_info_components_witness :
    idlComponent ∈ (package_info default_options
      { os := "Linux", compiler := "gcc", compilerVersion := [13],
        cppstd := none, libcxx := none } "/pkg").components :=
  (package_info_components.2.2 default_options
    { os := "Linux", compiler := "gcc", compilerVersion := [13],
      cppstd := none, libcxx := none } "/pkg" rfl).1

/-- C8: `package` always removes the share directory, the pkg-config
directory and the cmake glue files in lib/cmake/CycloneDDS; and it
performs the PDB and three runtime-DLL glob removals iff the os is
Windows, never on any other platform. -/
theorem package_rules_spec :
    (∀ st : Settings,
      ArtifactRule.rmdirRule "share" ∈ package st ∧
      ArtifactRule.rmdirRule "lib/pkgconfig" ∈ package st ∧
      ArtifactRule.rmGlob "*.cmake" "lib/cmake/CycloneDDS" ∈ package st) ∧
    (∀ st : Settings,
      (ArtifactRule.rmGlob "*.pdb" "bin" ∈ package st ∧
       ArtifactRule.rmGlob "concrt*.dll" "bin" ∈ package st ∧
       ArtifactRule.rmGlob "msvcp*.dll" "bin" ∈ package st ∧
       ArtifactRule.rmGlob "vcruntime*.dll" "bin" ∈ package st) ↔
      st.os = "Windows") := by
  constructor
  · intro st
    by_cases hw : st.os = "Windows" <;> simp [package, hw]
  · intro st
    by_cases hw : st.os = "Windows" <;> simp [package, hw]

/-- C8 witness: concrete evaluation of the theorem. -/
theorem package_rules_spec_witness :
    ArtifactRule.rmGlob "*.pdb" "bin" ∈ package
      { os := "Windows", compiler := "msvc", compilerVersion := [193],
        cppstd := none, libcxx := none } :=
  ((package_rules_spec.2
    { os := "Windows", compiler := "msvc", compilerVersion := [193],
      cppstd := none, libcxx := none }).mpr rfl).1
